import Mathlib

/-!
Shallow embedding of src/plugins/TelescopeControl/src/INDI/INDIConnection.cpp
(the INDIConnection adapter between the Stellarium telescope-control plugin and
the libindi client library).

Modelling choices:
  * IEEE doubles are modelled as exact rationals; machine epsilon
    (std::numeric_limits of double, epsilon()) is the exact rational 2 ^ (-52).
  * An INDI::BaseDevice handle is a record; a default-constructed (invalid)
    handle has valid = false, an empty device name and no properties, matching
    libindi (getDeviceName of an invalid handle yields the empty string).
  * The device property table (switch vectors, number vectors) is stored in the
    BaseDevice record; mutating a fetched property handle and transmitting it is
    modelled as a functional update of the record plus an element of the
    transmission trace.
  * Each adapter operation returns an Effect: the successor state, the ordered
    list of outbound transmissions (sendNewSwitch / sendNewNumber /
    sendNewProperty / connectDevice), and the ordered list of emitted Qt
    signals.
-/

/-- ISState of libindi: the state of one switch member. -/
inductive ISState where
  | ISS_ON
  | ISS_OFF
  deriving DecidableEq, Repr

open ISState

/-- Machine epsilon of IEEE double precision, as an exact rational. -/
def epsilon : ℚ := 1 / 2 ^ 52

/-- INDIConnection::Coordinates: right ascension and declination. -/
structure Coordinates where
  RA : ℚ
  DEC : ℚ
  deriving DecidableEq, Repr

/-- INDIConnection::Coordinates::operator== (lines 405-410): componentwise
comparison with tolerance epsilon, written with the two source
early-return-false tests. -/
def Coordinates.beq (a b : Coordinates) : Bool :=
  if |a.RA - b.RA| > epsilon then false
  else if |a.DEC - b.DEC| > epsilon then false
  else true

/-- INDIConnection::Coordinates::operator!= (lines 412-415). -/
def Coordinates.bne (a b : Coordinates) : Bool :=
  !(Coordinates.beq a b)

/-- The ON_COORD_SET switch vector with members TRACK, SLEW, SYNC. -/
structure OnCoordSet where
  TRACK : ISState
  SLEW : ISState
  SYNC : ISState
  deriving DecidableEq, Repr

/-- The TELESCOPE_MOTION_NS switch vector. -/
structure MotionNS where
  MOTION_NORTH : ISState
  MOTION_SOUTH : ISState
  deriving DecidableEq, Repr

/-- The TELESCOPE_MOTION_WE switch vector. -/
structure MotionWE where
  MOTION_EAST : ISState
  MOTION_WEST : ISState
  deriving DecidableEq, Repr

/-- The TELESCOPE_SLEW_RATE switch vector: an indexable array of members. -/
structure SlewRate where
  widgets : List ISState
  deriving DecidableEq, Repr

/-- PropertySwitch::count(): number of members of the switch vector. -/
def SlewRate.count (s : SlewRate) : Int :=
  s.widgets.length

/-- The EQUATORIAL_EOD_COORD number vector: members np[0] (RA), np[1] (DEC). -/
structure EqCoord where
  np0 : ℚ
  np1 : ℚ
  deriving DecidableEq, Repr

/-- INDI::BaseDevice handle together with the part of its property table the
adapter touches. -/
structure INDI.BaseDevice where
  valid : Bool
  deviceName : String
  connected : Bool
  ON_COORD_SET : Option OnCoordSet
  EQUATORIAL_EOD_COORD : Option EqCoord
  TELESCOPE_MOTION_NS : Option MotionNS
  TELESCOPE_MOTION_WE : Option MotionWE
  TELESCOPE_SLEW_RATE : Option SlewRate
  deriving DecidableEq, Repr

/-- A default-constructed INDI::BaseDevice(): invalid, empty name, not
connected, no properties. -/
def INDI.BaseDevice.empty : INDI.BaseDevice :=
  { valid := false
    deviceName := ""
    connected := false
    ON_COORD_SET := none
    EQUATORIAL_EOD_COORD := none
    TELESCOPE_MOTION_NS := none
    TELESCOPE_MOTION_WE := none
    TELESCOPE_SLEW_RATE := none }

/-- INDI::BaseDevice::isDeviceNameMatch: string comparison of the device name. -/
def INDI.BaseDevice.isDeviceNameMatch (d : INDI.BaseDevice) (otherName : String) : Bool :=
  d.deviceName == otherName

/-- An incoming INDI::Property notification: owning device name, property name,
and the payload fields the adapter reads (the first two number values for a
number vector, the index of the asserted member for a switch vector). -/
structure INDI.Property where
  deviceName : String
  name : String
  np0 : ℚ
  np1 : ℚ
  onSwitchIndex : Int
  deriving DecidableEq, Repr

/-- INDI::Telescope::SLEW_GUIDE, first (lowest) enumerator of the libindi
TelescopeSlewRate enum in inditelescope.h. -/
def INDI.Telescope.SLEW_GUIDE : Int := 0

/-- One outbound transmission to the INDI client (sendNewSwitch /
sendNewNumber / sendNewProperty / connectDevice), with its payload. -/
inductive Command where
  | sendOnCoordSet (track slew sync : ISState)
  | sendEqCoord (ra dec : ℚ)
  | sendMotionNS (north south : ISState)
  | sendMotionWE (east west : ISState)
  | sendSlewRate (widgets : List ISState)
  | connectDevice (deviceName : String)
  deriving DecidableEq, Repr

/-- One emitted Qt signal of INDIConnection. -/
inductive Signal where
  | newDeviceReceived (name : String)
  | removeDeviceReceived (name : String)
  | speedChanged (index : Int)
  | serverConnectedReceived
  | serverDisconnectedReceived (exitCode : Int)
  deriving DecidableEq, Repr

/-- The adapter state: the fields mTelescope, mCoordinates, mDevices of class
INDIConnection (the mutex serialises calls and is not part of the state). -/
structure INDIConnection where
  mTelescope : INDI.BaseDevice
  mCoordinates : Coordinates
  mDevices : List String
  deriving DecidableEq, Repr

/-- Result of one adapter operation: successor state, ordered transmissions,
ordered signals. -/
structure Effect where
  state : INDIConnection
  sent : List Command
  signals : List Signal
  deriving DecidableEq, Repr

/-- An operation that returns without transmitting or signalling. -/
def noEffect (st : INDIConnection) : Effect :=
  { state := st, sent := [], signals := [] }

/-- INDIConnection::SLEW_STOP (line 32): INDI::Telescope::SLEW_GUIDE - 1. -/
def INDIConnection.SLEW_STOP : Int :=
  INDI.Telescope.SLEW_GUIDE - 1

/-- INDIConnection::position (lines 38-42). -/
def INDIConnection.position (self : INDIConnection) : Coordinates :=
  self.mCoordinates

/-- INDIConnection::isDeviceConnected (lines 132-139). -/
def INDIConnection.isDeviceConnected (self : INDIConnection) : Bool :=
  if !self.mTelescope.valid then false
  else self.mTelescope.connected

/-- INDIConnection::devices (lines 141-145). -/
def INDIConnection.devices (self : INDIConnection) : List String :=
  self.mDevices

/-- INDIConnection::setPosition (lines 44-83): guard on handle validity and
connection, ensure the TRACK member of ON_COORD_SET is on (transmitting only
when it was off), then write both coordinate values into EQUATORIAL_EOD_COORD
and transmit it. -/
def INDIConnection.setPosition (self : INDIConnection) (coords : Coordinates) : Effect :=
  if !self.mTelescope.valid then noEffect self
  else if !self.mTelescope.connected then noEffect self
  else
    match self.mTelescope.ON_COORD_SET with
    | none => noEffect self
    | some switchVector =>
      let step1 : INDIConnection × List Command :=
        if switchVector.TRACK = ISS_OFF then
          let sv : OnCoordSet := { switchVector with TRACK := ISS_ON }
          ({ self with mTelescope := { self.mTelescope with ON_COORD_SET := some sv } },
           [Command.sendOnCoordSet sv.TRACK sv.SLEW sv.SYNC])
        else (self, [])
      let self1 := step1.1
      match self1.mTelescope.EQUATORIAL_EOD_COORD with
      | none => { state := self1, sent := step1.2, signals := [] }
      | some _ =>
        let dev := { self1.mTelescope with
                     EQUATORIAL_EOD_COORD := some { np0 := coords.RA, np1 := coords.DEC } }
        { state := { self1 with mTelescope := dev }
          sent := step1.2 ++ [Command.sendEqCoord coords.RA coords.DEC]
          signals := [] }

/-- INDIConnection::syncPosition (lines 85-130): guard on handle validity and
connection, assert SYNC on ON_COORD_SET (TRACK and SLEW off) and transmit,
write both coordinate values into EQUATORIAL_EOD_COORD and transmit, then
restore TRACK (SLEW and SYNC off) and transmit. -/
def INDIConnection.syncPosition (self : INDIConnection) (coords : Coordinates) : Effect :=
  if !self.mTelescope.valid then noEffect self
  else if !self.mTelescope.connected then noEffect self
  else
    match self.mTelescope.ON_COORD_SET with
    | none => noEffect self
    | some _ =>
      let sv1 : OnCoordSet := { TRACK := ISS_OFF, SLEW := ISS_OFF, SYNC := ISS_ON }
      let self1 := { self with mTelescope := { self.mTelescope with ON_COORD_SET := some sv1 } }
      let sent1 := [Command.sendOnCoordSet sv1.TRACK sv1.SLEW sv1.SYNC]
      match self1.mTelescope.EQUATORIAL_EOD_COORD with
      | none => { state := self1, sent := sent1, signals := [] }
      | some _ =>
        let dev1 := { self1.mTelescope with
                      EQUATORIAL_EOD_COORD := some { np0 := coords.RA, np1 := coords.DEC } }
        let sv2 : OnCoordSet := { TRACK := ISS_ON, SLEW := ISS_OFF, SYNC := ISS_OFF }
        let dev2 := { dev1 with ON_COORD_SET := some sv2 }
        { state := { self1 with mTelescope := dev2 }
          sent := sent1 ++ [Command.sendEqCoord coords.RA coords.DEC,
                            Command.sendOnCoordSet sv2.TRACK sv2.SLEW sv2.SYNC]
          signals := [] }

/-- INDIConnection::setSpeed (lines 302-312): fetch TELESCOPE_SLEW_RATE; return
if it is invalid, speed < 0 or speed > count(); otherwise reset every member
off, set the member at index speed on, and transmit.  The upper-bound
test is speed > count(), so speed == count() reaches the member access
slewRateSP[speed], one past the last member (out of bounds in the C++). -/
def INDIConnection.setSpeed (self : INDIConnection) (speed : Int) : Effect :=
  match self.mTelescope.TELESCOPE_SLEW_RATE with
  | none => noEffect self
  | some slewRateSP =>
    if speed < 0 ∨ speed > slewRateSP.count then noEffect self
    else
      let widgets := (List.replicate slewRateSP.widgets.length ISS_OFF).set speed.toNat ISS_ON
      let dev := { self.mTelescope with TELESCOPE_SLEW_RATE := some { widgets := widgets } }
      { state := { self with mTelescope := dev }
        sent := [Command.sendSlewRate widgets]
        signals := [] }

/-- INDIConnection::moveNorth (lines 198-222): guard on handle validity and
connection and on TELESCOPE_MOTION_NS; at SLEW_STOP deassert MOTION_NORTH,
otherwise run setSpeed(speed) and assert MOTION_NORTH; transmit the motion
switch vector. -/
def INDIConnection.moveNorth (self : INDIConnection) (speed : Int) : Effect :=
  if !self.mTelescope.valid ∨ !self.mTelescope.connected then noEffect self
  else
    match self.mTelescope.TELESCOPE_MOTION_NS with
    | none => noEffect self
    | some svp =>
      if speed = INDIConnection.SLEW_STOP then
        let svp2 : MotionNS := { svp with MOTION_NORTH := ISS_OFF }
        let dev := { self.mTelescope with TELESCOPE_MOTION_NS := some svp2 }
        { state := { self with mTelescope := dev }
          sent := [Command.sendMotionNS svp2.MOTION_NORTH svp2.MOTION_SOUTH]
          signals := [] }
      else
        let e := self.setSpeed speed
        let svp2 : MotionNS := { svp with MOTION_NORTH := ISS_ON }
        let dev := { e.state.mTelescope with TELESCOPE_MOTION_NS := some svp2 }
        { state := { e.state with mTelescope := dev }
          sent := e.sent ++ [Command.sendMotionNS svp2.MOTION_NORTH svp2.MOTION_SOUTH]
          signals := e.signals }

/-- INDIConnection::newDevice (lines 314-328): ignore an invalid handle,
append the device name to mDevices, make the device the active telescope, emit
newDeviceReceived. -/
def INDIConnection.newDevice (self : INDIConnection) (dp : INDI.BaseDevice) : Effect :=
  if !dp.valid then noEffect self
  else
    { state := { self with
                 mDevices := self.mDevices ++ [dp.deviceName]
                 mTelescope := dp }
      sent := []
      signals := [Signal.newDeviceReceived dp.deviceName] }

/-- INDIConnection::removeDevice (lines 330-345): ignore an invalid handle,
remove the first occurrence of the name from mDevices, reset mTelescope to a
default handle when its name matches, emit removeDeviceReceived. -/
def INDIConnection.removeDevice (self : INDIConnection) (dp : INDI.BaseDevice) : Effect :=
  if !dp.valid then noEffect self
  else
    let name := dp.deviceName
    let devices := self.mDevices.erase name
    let telescope :=
      if self.mTelescope.isDeviceNameMatch dp.deviceName then INDI.BaseDevice.empty
      else self.mTelescope
    { state := { self with mDevices := devices, mTelescope := telescope }
      sent := []
      signals := [Signal.removeDeviceReceived name] }

/-- INDIConnection::newProperty (lines 347-369): return when the active
name of the active telescope matches the owning device; otherwise cache the two
number values when the property is EQUATORIAL_EOD_COORD, and when the active
telescope is not connected issue connectDevice with its name. -/
def INDIConnection.newProperty (self : INDIConnection) (property : INDI.Property) : Effect :=
  if self.mTelescope.isDeviceNameMatch property.deviceName then noEffect self
  else
    let self1 :=
      if property.name = "EQUATORIAL_EOD_COORD" then
        { self with mCoordinates := { RA := property.np0, DEC := property.np1 } }
      else self
    if !self1.mTelescope.connected then
      { state := self1
        sent := [Command.connectDevice self1.mTelescope.deviceName]
        signals := [] }
    else noEffect self1

/-- INDIConnection::removeProperty (lines 371-374): explicit no-op. -/
def INDIConnection.removeProperty (self : INDIConnection) (_property : INDI.Property) : Effect :=
  noEffect self

/-- INDIConnection::updateProperty (lines 376-390): on TELESCOPE_SLEW_RATE emit
speedChanged with the index of the asserted member; on EQUATORIAL_EOD_COORD cache
the two number values; ignore every other property.  No device-match guard. -/
def INDIConnection.updateProperty (self : INDIConnection) (property : INDI.Property) : Effect :=
  if property.name = "TELESCOPE_SLEW_RATE" then
    { state := self, sent := [], signals := [Signal.speedChanged property.onSwitchIndex] }
  else if property.name = "EQUATORIAL_EOD_COORD" then
    { state := { self with mCoordinates := { RA := property.np0, DEC := property.np1 } }
      sent := []
      signals := [] }
  else noEffect self

/-- INDIConnection::serverConnected (lines 392-396). -/
def INDIConnection.serverConnected (self : INDIConnection) : Effect :=
  { state := self, sent := [], signals := [Signal.serverConnectedReceived] }

/-- INDIConnection::serverDisconnected (lines 398-403): clear mDevices, emit
serverDisconnectedReceived with the exit code. -/
def INDIConnection.serverDisconnected (self : INDIConnection) (exit_code : Int) : Effect :=
  { state := { self with mDevices := [] }
    sent := []
    signals := [Signal.serverDisconnectedReceived exit_code] }

/-- The registry invariant of the spec: a present (valid) active telescope is
listed in the device registry. -/
def activeTelescopeListed (st : INDIConnection) : Prop :=
  st.mTelescope.valid = true → st.mTelescope.deviceName ∈ st.mDevices

/-- A fully populated, connected telescope device used as concrete test data. -/
def scope : INDI.BaseDevice :=
  { valid := true
    deviceName := "Telescope Simulator"
    connected := true
    ON_COORD_SET := some { TRACK := ISS_ON, SLEW := ISS_OFF, SYNC := ISS_OFF }
    EQUATORIAL_EOD_COORD := some { np0 := 0, np1 := 0 }
    TELESCOPE_MOTION_NS := some { MOTION_NORTH := ISS_OFF, MOTION_SOUTH := ISS_OFF }
    TELESCOPE_MOTION_WE := some { MOTION_EAST := ISS_OFF, MOTION_WEST := ISS_OFF }
    TELESCOPE_SLEW_RATE := some { widgets := [ISS_ON, ISS_OFF, ISS_OFF, ISS_OFF] } }

/-- A freshly constructed adapter: default telescope handle, zero coordinates,
empty registry. -/
def initialConnection : INDIConnection :=
  { mTelescope := INDI.BaseDevice.empty
    mCoordinates := { RA := 0, DEC := 0 }
    mDevices := [] }

/-- An adapter whose active telescope is scope, with scope registered. -/
def scopeConnection : INDIConnection :=
  { mTelescope := scope
    mCoordinates := { RA := 0, DEC := 0 }
    mDevices := ["Telescope Simulator"] }

/-- scope with the EQUATORIAL_EOD_COORD number vector absent. -/
def scopeNoEq : INDI.BaseDevice :=
  { scope with EQUATORIAL_EOD_COORD := none }

/-- An adapter whose active telescope is scopeNoEq. -/
def scopeNoEqConnection : INDIConnection :=
  { mTelescope := scopeNoEq
    mCoordinates := { RA := 0, DEC := 0 }
    mDevices := ["Telescope Simulator"] }

/-- An EQUATORIAL_EOD_COORD property notification from the named device with
values (6, 30). -/
def coordProperty (dev : String) : INDI.Property :=
  { deviceName := dev
    name := "EQUATORIAL_EOD_COORD"
    np0 := 6
    np1 := 30
    onSwitchIndex := 0 }

/-- Claim C1: the claim states that newProperty ignores a notification exactly when
the owning device does NOT match the active telescope and otherwise caches an
values of an EQUATORIAL_EOD_COORD property.  The source guard (line 350) returns
when the device DOES match: an EQUATORIAL_EOD_COORD notification from the
active telescope itself is dropped without caching, while one from a foreign
device is cached. -/
theorem newProperty_ignores_matching_device :
    INDIConnection.newProperty scopeConnection (coordProperty "Telescope Simulator")
      = noEffect scopeConnection ∧
    (INDIConnection.newProperty scopeConnection (coordProperty "CCD Simulator")).state.mCoordinates
      = { RA := 6, DEC := 30 } := by
  exact ⟨by decide, by decide⟩

/-- Claim C2: the claim states setSpeed is a no-op unless speed lies in [0, count),
and in particular that setSpeed(count) changes nothing and transmits nothing.
The range check in the source (line 306) only rejects speed > count(), so
setSpeed(count) (here count = 4) resets every member and transmits; only
setSpeed(-1) is the claimed no-op. -/
theorem setSpeed_upper_bound_off_by_one :
    INDIConnection.setSpeed scopeConnection (-1) = noEffect scopeConnection ∧
    (INDIConnection.setSpeed scopeConnection 4).sent
      = [Command.sendSlewRate [ISS_OFF, ISS_OFF, ISS_OFF, ISS_OFF]] ∧
    (INDIConnection.setSpeed scopeConnection 4).state.mTelescope.TELESCOPE_SLEW_RATE
      ≠ scopeConnection.mTelescope.TELESCOPE_SLEW_RATE := by
  refine ⟨by decide, by decide, by decide⟩

/-- Claim C3 counterexample: after newDevice the invariant holds, but a following
serverDisconnected clears the registry while keeping the active telescope, so
the invariant fails. -/
theorem serverDisconnected_breaks_registry_invariant :
    activeTelescopeListed ((INDIConnection.newDevice initialConnection scope).state) ∧
    ¬ activeTelescopeListed
        ((INDIConnection.serverDisconnected
            ((INDIConnection.newDevice initialConnection scope).state) 7).state) := by
  constructor
  · intro _
    decide
  · intro h
    exact absurd (h (by decide)) (by decide)

/-- Claim C4 counterexample: on an active, connected telescope whose
EQUATORIAL_EOD_COORD number vector is absent, syncPosition transmits exactly
once (the SYNC mode switch), not three times. -/
theorem syncPosition_missing_coord_sends_one :
    (INDIConnection.syncPosition scopeNoEqConnection { RA := 1, DEC := 2 }).sent
      = [Command.sendOnCoordSet ISS_OFF ISS_OFF ISS_ON] ∧
    (INDIConnection.syncPosition scopeNoEqConnection { RA := 1, DEC := 2 }).sent.length ≠ 3 := by
  refine ⟨by decide, by decide⟩

/-- Claim C6: with no active telescope handle, setPosition transmits nothing, emits
nothing and leaves the adapter state unchanged. -/
theorem setPosition_without_device_noop (st : INDIConnection) (coords : Coordinates)
    (h : st.mTelescope.valid = false) :
    st.setPosition coords = noEffect st := by
  simp [INDIConnection.setPosition, h]

/-- Claim C6 witness: the fresh adapter has no valid telescope and setPosition on it
is a complete no-op. -/
theorem setPosition_without_device_noop_witness :
    initialConnection.mTelescope.valid = false ∧
    INDIConnection.setPosition initialConnection { RA := 3, DEC := 4 } = noEffect initialConnection :=
  ⟨by decide, setPosition_without_device_noop initialConnection { RA := 3, DEC := 4 } (by decide)⟩

/-- Claim C8: serverDisconnected empties the registry and emits
serverDisconnectedReceived with the exit code, while the active telescope
handle and the cached coordinates survive and nothing is transmitted. -/
theorem serverDisconnected_frame_conditions (st : INDIConnection) (exit_code : Int) :
    (st.serverDisconnected exit_code).state.mDevices = [] ∧
    (st.serverDisconnected exit_code).state.mTelescope = st.mTelescope ∧
    (st.serverDisconnected exit_code).state.mCoordinates = st.mCoordinates ∧
    (st.serverDisconnected exit_code).sent = [] ∧
    (st.serverDisconnected exit_code).signals = [Signal.serverDisconnectedReceived exit_code] :=
  ⟨rfl, rfl, rfl, rfl, rfl⟩

/-- Claim C9: updateProperty caches an EQUATORIAL_EOD_COORD update from any owning
device, transmits nothing, and its result never depends on the owning device
name (there is no device-match guard, unlike newProperty). -/
theorem updateProperty_caches_any_device (st : INDIConnection) (p : INDI.Property)
    (d : String) (h : p.name = "EQUATORIAL_EOD_COORD") :
    (st.updateProperty p).state.mCoordinates = { RA := p.np0, DEC := p.np1 } ∧
    (st.updateProperty p).sent = [] ∧
    st.updateProperty { p with deviceName := d } = st.updateProperty p := by
  refine ⟨?_, ?_, ?_⟩
  · simp [INDIConnection.updateProperty, h]
  · simp [INDIConnection.updateProperty, h]
  · simp [INDIConnection.updateProperty]

/-- Claim C9 witness: an update from a device other than the active telescope is
cached. -/
theorem updateProperty_caches_any_device_witness :
    (coordProperty "CCD Simulator").name = "EQUATORIAL_EOD_COORD" ∧
    ((INDIConnection.updateProperty scopeConnection (coordProperty "CCD Simulator")).state.mCoordinates
        = { RA := 6, DEC := 30 } ∧
      (INDIConnection.updateProperty scopeConnection (coordProperty "CCD Simulator")).sent = [] ∧
      INDIConnection.updateProperty scopeConnection
          { coordProperty "CCD Simulator" with deviceName := "Other" }
        = INDIConnection.updateProperty scopeConnection (coordProperty "CCD Simulator")) :=
  ⟨rfl, updateProperty_caches_any_device scopeConnection (coordProperty "CCD Simulator") "Other" rfl⟩

/-- Claim C10: with a default (cleared) telescope handle, a property from any
non-empty device name is still processed: EQUATORIAL_EOD_COORD values are
cached and a connect request for the empty active-telescope name is issued. -/
theorem newProperty_without_active_telescope (st : INDIConnection) (p : INDI.Property)
    (ht : st.mTelescope = INDI.BaseDevice.empty)
    (hd : p.deviceName ≠ "")
    (hn : p.name = "EQUATORIAL_EOD_COORD") :
    (st.newProperty p).state.mCoordinates = { RA := p.np0, DEC := p.np1 } ∧
    (st.newProperty p).sent = [Command.connectDevice ""] := by
  constructor
  · simp [INDIConnection.newProperty, ht, hn, INDI.BaseDevice.empty,
          INDI.BaseDevice.isDeviceNameMatch, Ne.symm hd]
  · simp [INDIConnection.newProperty, ht, hn, INDI.BaseDevice.empty,
          INDI.BaseDevice.isDeviceNameMatch, Ne.symm hd]

/-- Claim C10 witness: the fresh adapter caches a coordinate property from a device
and requests a connect for the empty name. -/
theorem newProperty_without_active_telescope_witness :
    initialConnection.mTelescope = INDI.BaseDevice.empty ∧
    ((INDIConnection.newProperty initialConnection (coordProperty "Telescope Simulator")).state.mCoordinates
        = { RA := 6, DEC := 30 } ∧
      (INDIConnection.newProperty initialConnection (coordProperty "Telescope Simulator")).sent
        = [Command.connectDevice ""]) :=
  ⟨rfl, newProperty_without_active_telescope initialConnection (coordProperty "Telescope Simulator")
          rfl (by decide) rfl⟩

/-- Claim C3 amended: the registry invariant is preserved by newDevice and by
removeDevice (which clears the active telescope exactly when it removes the
matching name); serverDisconnected is the exception shown by the
counterexample. -/
theorem newDevice_removeDevice_preserve_registry_invariant
    (st : INDIConnection) (dp : INDI.BaseDevice)
    (h : activeTelescopeListed st) :
    activeTelescopeListed ((st.newDevice dp).state) ∧
    activeTelescopeListed ((st.removeDevice dp).state) := by
  constructor
  · by_cases hv : dp.valid = true
    · intro _
      simp [INDIConnection.newDevice, hv]
    · have hv2 : dp.valid = false := by simpa using hv
      simpa [INDIConnection.newDevice, hv2, noEffect] using h
  · by_cases hv : dp.valid = true
    · by_cases hm : st.mTelescope.isDeviceNameMatch dp.deviceName = true
      · intro hvalid
        simp [INDIConnection.removeDevice, hv, hm, INDI.BaseDevice.empty] at hvalid
      · intro hvalid
        have hst : st.mTelescope.valid = true := by
          simpa [INDIConnection.removeDevice, hv, hm] using hvalid
        have hne : st.mTelescope.deviceName ≠ dp.deviceName := by
          simpa [INDI.BaseDevice.isDeviceNameMatch] using hm
        have hmem := h hst
        simp [INDIConnection.removeDevice, hv, hm]
        exact (List.mem_erase_of_ne hne).mpr hmem
    · have hv2 : dp.valid = false := by simpa using hv
      simpa [INDIConnection.removeDevice, hv2, noEffect] using h

/-- Claim C3 amended witness: preservation at the fresh adapter and the scope
device. -/
theorem newDevice_removeDevice_preserve_registry_invariant_witness :
    activeTelescopeListed ((INDIConnection.newDevice initialConnection scope).state) ∧
    activeTelescopeListed ((INDIConnection.removeDevice initialConnection scope).state) :=
  newDevice_removeDevice_preserve_registry_invariant initialConnection scope
    (fun hv => absurd hv (by decide))

/-- Claim C4 amended: with an active, connected telescope exposing both ON_COORD_SET
and EQUATORIAL_EOD_COORD, syncPosition transmits exactly three times, in order
SYNC mode on, coordinate write, TRACK mode restored. -/
theorem syncPosition_sends_three_in_order (st : INDIConnection) (coords : Coordinates)
    (sv : OnCoordSet) (nv : EqCoord)
    (hv : st.mTelescope.valid = true) (hc : st.mTelescope.connected = true)
    (hs : st.mTelescope.ON_COORD_SET = some sv)
    (hn : st.mTelescope.EQUATORIAL_EOD_COORD = some nv) :
    (st.syncPosition coords).sent =
      [Command.sendOnCoordSet ISS_OFF ISS_OFF ISS_ON,
       Command.sendEqCoord coords.RA coords.DEC,
       Command.sendOnCoordSet ISS_ON ISS_OFF ISS_OFF] := by
  simp [INDIConnection.syncPosition, hv, hc, hs, hn]

/-- Claim C4 amended witness: the three ordered transmissions at a concrete connected
telescope. -/
theorem syncPosition_sends_three_in_order_witness :
    (INDIConnection.syncPosition scopeConnection { RA := 5, DEC := 6 }).sent =
      [Command.sendOnCoordSet ISS_OFF ISS_OFF ISS_ON,
       Command.sendEqCoord 5 6,
       Command.sendOnCoordSet ISS_ON ISS_OFF ISS_OFF] :=
  syncPosition_sends_three_in_order scopeConnection { RA := 5, DEC := 6 }
    { TRACK := ISS_ON, SLEW := ISS_OFF, SYNC := ISS_OFF } { np0 := 0, np1 := 0 }
    rfl rfl rfl rfl

/-- Claim C5: on an active, connected telescope with TELESCOPE_MOTION_NS present,
moveNorth(SLEW_STOP) deasserts MOTION_NORTH and transmits it without touching
TELESCOPE_SLEW_RATE, where SLEW_STOP is one less than the lowest libindi
guide-speed enumerator; for any other speed, moveNorth first runs
setSpeed(speed) and then asserts MOTION_NORTH and transmits it. -/
theorem moveNorth_stop_and_speed (st : INDIConnection) (m : MotionNS) (speed : Int)
    (hv : st.mTelescope.valid = true) (hc : st.mTelescope.connected = true)
    (hm : st.mTelescope.TELESCOPE_MOTION_NS = some m)
    (hspd : speed ≠ INDIConnection.SLEW_STOP) :
    INDIConnection.SLEW_STOP = INDI.Telescope.SLEW_GUIDE - 1 ∧
    (st.moveNorth INDIConnection.SLEW_STOP).state.mTelescope.TELESCOPE_MOTION_NS
      = some { m with MOTION_NORTH := ISS_OFF } ∧
    (st.moveNorth INDIConnection.SLEW_STOP).state.mTelescope.TELESCOPE_SLEW_RATE
      = st.mTelescope.TELESCOPE_SLEW_RATE ∧
    (st.moveNorth INDIConnection.SLEW_STOP).sent
      = [Command.sendMotionNS ISS_OFF m.MOTION_SOUTH] ∧
    st.moveNorth speed =
      { state := { (st.setSpeed speed).state with
                   mTelescope := { (st.setSpeed speed).state.mTelescope with
                                   TELESCOPE_MOTION_NS := some { m with MOTION_NORTH := ISS_ON } } }
        sent := (st.setSpeed speed).sent ++ [Command.sendMotionNS ISS_ON m.MOTION_SOUTH]
        signals := (st.setSpeed speed).signals } := by
  refine ⟨rfl, ?_, ?_, ?_, ?_⟩
  · simp [INDIConnection.moveNorth, hv, hc, hm]
  · simp [INDIConnection.moveNorth, hv, hc, hm]
  · simp [INDIConnection.moveNorth, hv, hc, hm]
  · simp [INDIConnection.moveNorth, hv, hc, hm, hspd]

/-- Claim C5 witness: the two moveNorth behaviours at the concrete connected scope
with speed 2. -/
theorem moveNorth_stop_and_speed_witness :
    (2 : Int) ≠ INDIConnection.SLEW_STOP ∧
    (INDIConnection.SLEW_STOP = INDI.Telescope.SLEW_GUIDE - 1 ∧
     (INDIConnection.moveNorth scopeConnection INDIConnection.SLEW_STOP).state.mTelescope.TELESCOPE_MOTION_NS
       = some { MOTION_NORTH := ISS_OFF, MOTION_SOUTH := ISS_OFF } ∧
     (INDIConnection.moveNorth scopeConnection INDIConnection.SLEW_STOP).state.mTelescope.TELESCOPE_SLEW_RATE
       = scopeConnection.mTelescope.TELESCOPE_SLEW_RATE ∧
     (INDIConnection.moveNorth scopeConnection INDIConnection.SLEW_STOP).sent
       = [Command.sendMotionNS ISS_OFF ISS_OFF] ∧
     INDIConnection.moveNorth scopeConnection 2 =
       { state := { (INDIConnection.setSpeed scopeConnection 2).state with
                    mTelescope := { (INDIConnection.setSpeed scopeConnection 2).state.mTelescope with
                                    TELESCOPE_MOTION_NS := some { MOTION_NORTH := ISS_ON, MOTION_SOUTH := ISS_OFF } } }
         sent := (INDIConnection.setSpeed scopeConnection 2).sent
                   ++ [Command.sendMotionNS ISS_ON ISS_OFF]
         signals := (INDIConnection.setSpeed scopeConnection 2).signals }) :=
  ⟨by decide,
   moveNorth_stop_and_speed scopeConnection { MOTION_NORTH := ISS_OFF, MOTION_SOUTH := ISS_OFF } 2
     rfl rfl rfl (by decide)⟩

/-- The branch structure of Coordinates::operator== is equivalent to the
conjunction of the two componentwise epsilon comparisons. -/
theorem Coordinates.beq_iff (a b : Coordinates) :
    Coordinates.beq a b = true ↔ (|a.RA - b.RA| ≤ epsilon ∧ |a.DEC - b.DEC| ≤ epsilon) := by
  unfold Coordinates.beq
  by_cases h1 : |a.RA - b.RA| > epsilon
  · simp [h1, not_le.mpr h1]
  · by_cases h2 : |a.DEC - b.DEC| > epsilon
    · simp [h1, h2, not_le.mpr h2]
    · simp [h1, h2, not_lt.mp h1, not_lt.mp h2]

/-- Claim C7: Coordinates equality holds exactly when both components differ by at
most machine epsilon; it is symmetric and reflexive, and the inequality
operator is its negation. -/
theorem coordinates_equality_epsilon (a b : Coordinates) :
    (Coordinates.beq a b = true ↔ (|a.RA - b.RA| ≤ epsilon ∧ |a.DEC - b.DEC| ≤ epsilon)) ∧
    Coordinates.beq a b = Coordinates.beq b a ∧
    Coordinates.beq a a = true ∧
    Coordinates.bne a b = !Coordinates.beq a b := by
  refine ⟨Coordinates.beq_iff a b, ?_, ?_, rfl⟩
  · unfold Coordinates.beq
    rw [abs_sub_comm a.RA b.RA, abs_sub_comm a.DEC b.DEC]
  · rw [Coordinates.beq_iff]
    norm_num [epsilon]
